import Mathlib

/-!
Verification of the column-definition grammar and row-formatting engine of
mara-google-sheet-downloader (`mara_google_sheet_downloader/columns_definition.py`
and the header-skip check of `mara_google_sheet_downloader/__main__.py`).

The Python code is shallowly embedded: each class / function of the source is
translated to an executable Lean definition.  Python strings are `String`,
Python `None`-or-string values are `Option String`, exceptions are `Except`
errors, and the in-place mutation of counter cells is explicit state passing
(each evaluation returns the updated cell).  Python `float` values produced by
the numeric cells are modelled as exact decimals (sign, significand and
power-of-ten exponent, kept normalized) with shortest-terminating-decimal
rendering; on the plain decimal literals the repository feeds through this
pipeline this coincides with CPython's `float`/`str` behaviour (exponent
notation, `inf`/`nan` and underscore literals are not exercised by the code
under verification and are not modelled).
-/

namespace MaraGSD

/-! ### Python string primitives -/

/-- ASCII whitespace as stripped by Python's `str.strip()` (unicode whitespace
beyond ASCII is not exercised by the repository and not modelled). -/
def pyIsSpace (c : Char) : Bool :=
  c = ' ' || c = '\t' || c = '\n' || c = '\r' || c = '\x0b' || c = '\x0c'

/-- Python `str.strip()`. -/
def pyStrip (s : String) : String :=
  String.mk (((s.data.dropWhile pyIsSpace).reverse.dropWhile pyIsSpace).reverse)

/-- Python `str.lower()` (ASCII). -/
def pyLower (s : String) : String :=
  String.mk (s.data.map Char.toLower)

/-- Python `str.replace(old, new)` for a one-character pattern `old`. -/
def pyReplaceChar (s : String) (old : Char) (new : String) : String :=
  String.mk (s.data.flatMap (fun c => if c = old then new.data else [c]))

/-- `_NUMERIC_REMOVE_NON_NUMERIC_CHARS.sub('', s)`: drop every character
outside `[0-9,.]`. -/
def pyFilterNumeric (s : String) : String :=
  String.mk (s.data.filter (fun c => c.isDigit || c = ',' || c = '.'))

/-- Python `str.split(sep)` for a one-character separator, on character
lists (defined here structurally so that it reduces in the kernel;
`String.splitOn` does not). -/
def splitOnChar (sep : Char) : List Char → List (List Char)
  | [] => [[]]
  | c :: rest =>
    let r := splitOnChar sep rest
    if c = sep then [] :: r
    else
      match r with
      | [] => [[c]]
      | h :: t => (c :: h) :: t

instance {ε α : Type} [DecidableEq ε] [DecidableEq α] : DecidableEq (Except ε α)
  | .error e1, .error e2 =>
    if h : e1 = e2 then .isTrue (by rw [h]) else .isFalse (by intro hc; cases hc; exact h rfl)
  | .ok a1, .ok a2 =>
    if h : a1 = a2 then .isTrue (by rw [h]) else .isFalse (by intro hc; cases hc; exact h rfl)
  | .error _, .ok _ => .isFalse (by intro hc; cases hc)
  | .ok _, .error _ => .isFalse (by intro hc; cases hc)

/-! ### Python integer / float conversion and rendering -/

def allDigits (l : List Char) : Bool := l.all Char.isDigit

def digitsToNat (l : List Char) : Nat :=
  l.foldl (fun acc c => acc * 10 + (c.toNat - 48)) 0

/-- A Python `float` holding an exactly-representable terminating decimal:
the value `(-1)^sign * num / 10^exp`.  All values the repository's pipeline
produces are short decimal literals, for which CPython's `float` is the
nearest double and `str` prints the shortest round-tripping decimal — i.e.
the normalized exact decimal modelled here (`exp` minimal). -/
structure PyFloat where
  sign : Bool
  num : Nat
  exp : Nat
deriving DecidableEq

/-- Normalize `(num, exp)` (value `num / 10^exp`) by dropping trailing
zero digits; zero becomes `(0, 0)`. -/
def stripZeros : Nat → Nat → Nat × Nat
  | n, 0 => (n, 0)
  | n, e + 1 =>
    if n = 0 then (0, 0)
    else if n % 10 = 0 then stripZeros (n / 10) e
    else (n, e + 1)

/-- Python `float(s)` on plain decimal literals: optional surrounding
whitespace, optional sign, digits with at most one dot (`"1."` and `".5"`
are accepted, `"."` and `""` are not). -/
def pyFloatParse (s : String) : Option PyFloat :=
  let t := pyStrip s
  let signAndRest : Bool × List Char :=
    match t.data with
    | '-' :: rest => (true, rest)
    | '+' :: rest => (false, rest)
    | l => (false, l)
  match splitOnChar '.' signAndRest.2 with
  | [a] =>
    if a ≠ [] && allDigits a then
      some ⟨signAndRest.1, digitsToNat a, 0⟩
    else none
  | [a, b] =>
    if (a ≠ [] || b ≠ []) && allDigits a && allDigits b then
      let ne := stripZeros (digitsToNat (a ++ b)) b.length
      some ⟨signAndRest.1, ne.1, ne.2⟩
    else none
  | _ => none

/-- Decimal digit list of `n`, most significant first (fuel-bounded; the
recursion divides by 10 each step, so `n + 1` fuel always suffices). -/
def natToDigitsAux : Nat → Nat → List Char
  | 0, _ => []
  | fuel + 1, n =>
    if n < 10 then [Nat.digitChar n]
    else natToDigitsAux fuel (n / 10) ++ [Nat.digitChar (n % 10)]

def natToDigits (n : Nat) : List Char := natToDigitsAux (n + 1) n

/-- Python `str(n)` for an `int`. -/
def intRepr : Int → String
  | Int.ofNat m => String.mk (natToDigits m)
  | Int.negSucc m => String.mk ('-' :: natToDigits (m + 1))

def natRepr (n : Nat) : String := String.mk (natToDigits n)

/-- Python `str(x)` for a `float`: the shortest terminating decimal, with
`".0"` appended to integral values. -/
def pyStrFloat (f : PyFloat) : String :=
  let signStr := if f.sign then "-" else ""
  if f.exp = 0 then signStr ++ natRepr f.num ++ ".0"
  else
    let fp := f.num % 10 ^ f.exp
    let fpStr := natRepr fp
    signStr ++ natRepr (f.num / 10 ^ f.exp) ++ "." ++
      String.mk (List.replicate (f.exp - fpStr.length) '0') ++ fpStr

/-- The value of a `PyFloat` as a signed integer numerator over `10^exp`. -/
def PyFloat.intVal (f : PyFloat) : Int :=
  if f.sign then -(f.num : Int) else (f.num : Int)

/-- Comparison `x < y` of two Python floats. -/
def pyFloatLt (x y : PyFloat) : Bool :=
  x.intVal * ((10 ^ y.exp : Nat) : Int) < y.intVal * ((10 ^ x.exp : Nat) : Int)

/-- Python `int(x)` for a `float`: truncation toward zero. -/
def pyTruncToInt (f : PyFloat) : Int :=
  if f.sign then -((f.num / 10 ^ f.exp : Nat) : Int) else ((f.num / 10 ^ f.exp : Nat) : Int)

/-- Python `int(s)` on an integer literal (used for the counter `start`
argument): optional surrounding whitespace, optional sign, decimal digits. -/
def pyIntLiteral (s : String) : Option Int :=
  let t := pyStrip s
  let signAndRest : Int × List Char :=
    match t.data with
    | '-' :: rest => (-1, rest)
    | '+' :: rest => (1, rest)
    | l => (1, l)
  if signAndRest.2 ≠ [] && allDigits signAndRest.2 then
    some (signAndRest.1 * (digitsToNat signAndRest.2 : Int))
  else none

/-! ### `time.strptime` / `time.strftime` for the directives the code uses

`date_` only ever uses the directives `%Y`, `%m`, `%d` and literal separator
characters (its format strings are the `%Y-%m-%d` defaults plus whatever a
configuration supplies; the repository's own tests and defaults stay within
these directives), so the embedding models exactly those, with the digit
patterns CPython's `_strptime.TimeRE` uses. -/

structure PyDate where
  year : Nat
  month : Nat
  day : Nat
deriving DecidableEq

/-- Exactly `n` leading digits (CPython `%Y` uses `\d\d\d\d`). -/
def takeDigits : Nat → List Char → Option (Nat × List Char)
  | 0, l => some (0, l)
  | _ + 1, [] => none
  | n + 1, c :: rest =>
    if c.isDigit then
      (takeDigits n rest).map (fun p => ((c.toNat - 48) * 10 ^ n + p.1, p.2))
    else none

/-- CPython `%m` pattern `1[0-2]|0[1-9]|[1-9]`: a two-digit month if the two
leading digits form `01`–`12`, otherwise a single nonzero digit. -/
def parseMonth : List Char → Option (Nat × List Char)
  | c1 :: c2 :: rest =>
    if c1.isDigit && c2.isDigit then
      let v := (c1.toNat - 48) * 10 + (c2.toNat - 48)
      if 1 ≤ v && v ≤ 12 then some (v, rest)
      else if 1 ≤ c1.toNat - 48 then some (c1.toNat - 48, c2 :: rest)
      else none
    else if c1.isDigit && 1 ≤ c1.toNat - 48 then some (c1.toNat - 48, c2 :: rest)
    else none
  | [c1] => if c1.isDigit && 1 ≤ c1.toNat - 48 then some (c1.toNat - 48, []) else none
  | [] => none

/-- CPython `%d` pattern `3[01]|[12]\d|0[1-9]|[1-9]`. -/
def parseDay : List Char → Option (Nat × List Char)
  | c1 :: c2 :: rest =>
    if c1.isDigit && c2.isDigit then
      let v := (c1.toNat - 48) * 10 + (c2.toNat - 48)
      if 1 ≤ v && v ≤ 31 then some (v, rest)
      else if 1 ≤ c1.toNat - 48 then some (c1.toNat - 48, c2 :: rest)
      else none
    else if c1.isDigit && 1 ≤ c1.toNat - 48 then some (c1.toNat - 48, c2 :: rest)
    else none
  | [c1] => if c1.isDigit && 1 ≤ c1.toNat - 48 then some (c1.toNat - 48, []) else none
  | [] => none

def fmtParseAux : List Char → List Char → Option Nat → Option Nat → Option Nat → Option PyDate
  | [], s, y, m, d =>
    if s = [] then some ⟨y.getD 1900, m.getD 1, d.getD 1⟩ else none
  | '%' :: 'Y' :: rest, s, _, m, d =>
    (takeDigits 4 s).bind (fun p => fmtParseAux rest p.2 (some p.1) m d)
  | '%' :: 'm' :: rest, s, y, _, d =>
    (parseMonth s).bind (fun p => fmtParseAux rest p.2 y (some p.1) d)
  | '%' :: 'd' :: rest, s, y, m, _ =>
    (parseDay s).bind (fun p => fmtParseAux rest p.2 y m (some p.1))
  | '%' :: _ :: _, _, _, _, _ => none
  | c :: rest, s, y, m, d =>
    match s with
    | c' :: s' => if c' = c then fmtParseAux rest s' y m d else none
    | [] => none

/-- `time.strptime(value, fmt)` for the modelled directives; `none` is the
`ValueError` for data not matching the format. -/
def strptime (value fmt : String) : Option PyDate :=
  fmtParseAux fmt.data value.data none none none

def pad2 (n : Nat) : String :=
  if n < 10 then String.mk ('0' :: natToDigits n) else natRepr n

def pad4 (n : Nat) : String :=
  String.mk (List.replicate (4 - (natToDigits n).length) '0') ++ natRepr n

def fmtRenderAux : List Char → PyDate → String
  | [], _ => ""
  | '%' :: 'Y' :: rest, dt => pad4 dt.year ++ fmtRenderAux rest dt
  | '%' :: 'm' :: rest, dt => pad2 dt.month ++ fmtRenderAux rest dt
  | '%' :: 'd' :: rest, dt => pad2 dt.day ++ fmtRenderAux rest dt
  | '%' :: c :: rest, dt => String.mk ['%', c] ++ fmtRenderAux rest dt
  | c :: rest, dt => String.mk [c] ++ fmtRenderAux rest dt

/-- `time.strftime(fmt, d)` for the modelled directives. -/
def strftime (fmt : String) (dt : PyDate) : String :=
  fmtRenderAux fmt.data dt

/-! ### Cell definitions (the `CellDefinition` class hierarchy)

Each Python class becomes one constructor; the instance attributes listed in
`_arguments` (plus the extra state `init_defaults` creates) become structure
fields.  An attribute that is never assigned (so that Python's
`getattr(self, name, None)` yields `None`) is `none`; an attribute assigned a
value `v` is `some v`. -/

/-- Arguments of `NumericCellDefinition` (`int_` stores `lower`/`upper` as
ints, `float_` as floats, hence the type parameter). -/
structure NumArgs (α : Type) where
  lower : Option α := none
  upper : Option α := none
  thousands_separator : Option Char := none
  ignore_non_numeric : Option Bool := none
deriving DecidableEq

/-- Arguments of `bool_` (`true`/`false` synonym overrides). -/
structure BoolArgs where
  trueLit : Option String := none
  falseLit : Option String := none
deriving DecidableEq

/-- Attributes of `date_`: `_arguments` is `['in_fmt', 'out_fmt']`, while
`init_defaults` sets `in_format`/`out_format`; all four live on the
instance. -/
structure DateArgs where
  in_fmt : Option String := none
  out_fmt : Option String := none
  in_format : String := "%Y-%m-%d"
  out_format : String := "%Y-%m-%d"
deriving DecidableEq

structure AddOnArgs where
  value : String := ""
deriving DecidableEq

structure CounterArgs where
  start : Int := 0
  current_count : Int := 0
deriving DecidableEq

inductive Cell where
  | strC (required : Bool)
  | floatC (required : Bool) (args : NumArgs PyFloat)
  | intC (required : Bool) (args : NumArgs Int)
  | boolC (required : Bool) (args : BoolArgs)
  | dateC (required : Bool) (args : DateArgs)
  | addOnC (required : Bool) (args : AddOnArgs)
  | counterC (required : Bool) (args : CounterArgs)
  | dontIncludeC (required : Bool)
deriving DecidableEq

def requiredOf : Cell → Bool
  | .strC r | .floatC r _ | .intC r _ | .boolC r _ | .dateC r _
  | .addOnC r _ | .counterC r _ | .dontIncludeC r => r

/-- `isinstance(cell, add_on_)` — true for `add_on_` and its subclass
`counter_`. -/
def isAddOn : Cell → Bool
  | .addOnC _ _ | .counterC _ _ => true
  | _ => false

def isOmit : Cell → Bool
  | .dontIncludeC _ => true
  | _ => false

/-! ### `validate_and_format_value` per kind -/

/-- The built-in `_valid_str_values` table of `bool_` together with the
`finalize_arguments` overrides: the dict is written in the order
base table, `true` literal, `false` literal, so a later (non-empty) entry
wins on key collision. -/
def boolLookup (a : BoolArgs) (s : String) : Option Bool :=
  if (match a.falseLit with
      | some f => f ≠ "" && pyLower f = s
      | none => false) then some false
  else if (match a.trueLit with
      | some t => t ≠ "" && pyLower t = s
      | none => false) then some true
  else if s = "true" || s = "t" || s = "1" then some true
  else if s = "false" || s = "f" || s = "0" then some false
  else none

/-- `float_.converter` on a string. -/
def pyFloatConv (s : String) : Except String PyFloat :=
  match pyFloatParse s with
  | none => .error ("Not parseable as float: " ++ s)
  | some q => .ok q

/-- `int_.converter` on a string: `int(float(input))`. -/
def pyIntConv (s : String) : Except String Int :=
  match pyFloatParse s with
  | none => .error ("Not parseable as int: " ++ s)
  | some q => .ok (pyTruncToInt q)

/-- `NumericCellDefinition.validate_and_format_value`, generic over the
converter (shared by `int_` and `float_` exactly as in the source). -/
def numericVAF {α : Type} (conv : String → Except String α) (render : α → String)
    (ltB : α → α → Bool) (lower upper : Option α) (ignoreNN : Option Bool)
    (tsep : Option Char) (input : Option String) : Except String String :=
  match input with
  | none => .ok ""
  | some s0 =>
    let s1 := if ignoreNN.getD false then pyFilterNumeric s0 else s0
    let s2 := pyReplaceChar s1 (tsep.getD ',') ""
    let s3 := pyReplaceChar s2 ',' "."
    match conv s3 with
    | .error e => .error e
    | .ok val =>
      if (match lower with | some lo => ltB val lo | none => false) then
        .error ("value out of range " ++
          (match lower with | some lo => render lo | none => "") ++ "<=" ++ render val)
      else if (match upper with | some up => ltB up val | none => false) then
        .error ("value out of range " ++ render val ++ "<=" ++
          (match upper with | some up => render up | none => ""))
      else .ok (render val)

def requiredMsg : String := "Value required, but was empty after validation and formatting"

/-- `validate_and_format_value` of each cell class, returning the formatted
string and the (possibly state-updated) cell.  For `dont_include_` the
method raises `_SkipColumn`; that path is handled in `callCell` (which
models the overridden `__call__`), so the branch here is unreachable. -/
def cellVAF : Cell → Option String → Except String (String × Cell)
  | c@(.strC _), v => .ok (pyStrip (v.getD ""), c)
  | c@(.floatC _ a), v =>
    (numericVAF pyFloatConv pyStrFloat pyFloatLt
      a.lower a.upper a.ignore_non_numeric a.thousands_separator v).map (fun s => (s, c))
  | c@(.intC _ a), v =>
    (numericVAF pyIntConv intRepr (fun x y => decide (x < y))
      a.lower a.upper a.ignore_non_numeric a.thousands_separator v).map (fun s => (s, c))
  | c@(.boolC _ a), v =>
    match v with
    | none => .error "invalid literal for boolean. not numeric and not string."
    | some s =>
      match boolLookup a (pyLower s) with
      | some true => .ok ("True", c)
      | some false => .ok ("False", c)
      | none => .error ("invalid literal for boolean: \"" ++ s ++ "\"")
  | c@(.dateC _ a), v =>
    match v with
    | none => .error "strptime() argument 1 must be str, not None"
    | some s =>
      match strptime s a.in_format with
      | none => .error ("time data '" ++ s ++ "' does not match format '" ++ a.in_format ++ "'")
      | some dt => .ok (strftime a.out_format dt, c)
  | c@(.addOnC _ a), v =>
    match v with
    | some s => .error ("Add-on columns cannot be used with a cell value, got " ++ s ++ "!")
    | none => .ok (a.value, c)
  | .counterC r a, v =>
    match v with
    | some s => .error ("Counter column cannot be used with a value, got " ++ s ++ "!")
    | none => .ok (intRepr (a.current_count + 1),
                   .counterC r { a with current_count := a.current_count + 1 })
  | .dontIncludeC _, _ => .error "_SkipColumn"

/-- The three possible outcomes of `CellDefinition.__call__` as observed by
`write_rows_as_csv_to_stream`: a formatted value, the `_SkipColumn` signal,
or a `ValueError`. -/
inductive CallOutcome where
  | ok (value : String) (cell : Cell)
  | skip
  | err (msg : String)
deriving DecidableEq

/-- `CellDefinition.__call__` (with the `dont_include_` override, which
raises `_SkipColumn` unconditionally). -/
def callCell (c : Cell) (value : Option String) : CallOutcome :=
  match c with
  | .dontIncludeC _ => .skip
  | _ =>
    let step : Except String (String × Cell) :=
      match value with
      | some s => if pyStrip s = "" then .ok ("", c) else cellVAF c (some s)
      | none => cellVAF c none
    match step with
    | .error e => .err e
    | .ok (ret, c') =>
      if ret = "" ∧ requiredOf c then .err requiredMsg else .ok ret c'

/-! ### Cell construction (`CellDefinition.__init__` and subclasses) -/

/-- A value passed to `_validate_and_set_argument`: either the raw string
from an unparsed argument list or an already-typed keyword value. -/
inductive ArgVal where
  | s (v : String)
  | i (v : Int)
  | b (v : Bool)
deriving DecidableEq

/-- The f-string rendering of an argument value in error messages. -/
def argValStr : ArgVal → String
  | .s v => v
  | .i v => intRepr v
  | .b v => if v then "True" else "False"

/-- `float_.converter` on an argument value (Python `float(value)`). -/
def floatConvArg : ArgVal → Except String PyFloat
  | .s v => pyFloatConv v
  | .i v => .ok ⟨decide (v < 0), v.natAbs, 0⟩
  | .b v => .ok ⟨false, if v then 1 else 0, 0⟩

/-- `int_.converter` on an argument value (Python `int(float(value))`). -/
def intConvArg : ArgVal → Except String Int
  | .s v => pyIntConv v
  | .i v => .ok v
  | .b v => .ok (if v then 1 else 0)

/-- `NumericCellDefinition.validate_argument` + `setattr`, generic over the
converter used for `lower`/`upper`. -/
def numericApplyArg {α : Type} (conv : ArgVal → Except String α)
    (a : NumArgs α) (p : String × ArgVal) : Except String (NumArgs α) :=
  let name := p.1
  let value := p.2
  if name = "lower" || name = "upper" || name = "thousands_separator"
      || name = "ignore_non_numeric" then
    if name = "ignore_non_numeric" then
      match value with
      | .b bv => .ok { a with ignore_non_numeric := some bv }
      | .s sv =>
        let flag : Bool := pyLower sv = "t" || pyLower sv = "true" || pyLower sv = "1"
        .ok { a with ignore_non_numeric := some flag }
      | .i _ =>
        -- `value.lower()` raises on an int, re-raised as the generic message
        .error ("Invalid value for argument 'ignore_non_numeric': " ++ argValStr value)
    else if name = "thousands_separator" then
      .ok { a with thousands_separator := some (if value = .s "." then '.' else ',') }
    else
      match conv value with
      | .error _ => .error ("Invalid value for argument '" ++ name ++ "': " ++ argValStr value)
      | .ok x =>
        if name = "lower" then .ok { a with lower := some x }
        else .ok { a with upper := some x }
  else .error ("Not a possible argument: " ++ name)

/-- `bool_`: `_arguments = ['true', 'false']`, identity validation. -/
def boolApplyArg (a : BoolArgs) (p : String × ArgVal) : Except String BoolArgs :=
  match p with
  | ("true", .s v) => .ok { a with trueLit := some v }
  | ("false", .s v) => .ok { a with falseLit := some v }
  | (name, _) =>
    if name = "true" || name = "false" then
      .error ("Invalid value for argument '" ++ name ++ "': " ++ argValStr p.2)
    else .error ("Not a possible argument: " ++ name)

/-- `date_`: `_arguments = ['in_fmt', 'out_fmt']`, identity validation;
NOTE the formatter reads `in_format`/`out_format`, which are not settable. -/
def dateApplyArg (a : DateArgs) (p : String × ArgVal) : Except String DateArgs :=
  match p with
  | ("in_fmt", .s v) => .ok { a with in_fmt := some v }
  | ("out_fmt", .s v) => .ok { a with out_fmt := some v }
  | (name, _) =>
    if name = "in_fmt" || name = "out_fmt" then
      .error ("Invalid value for argument '" ++ name ++ "': " ++ argValStr p.2)
    else .error ("Not a possible argument: " ++ name)

/-- `add_on_`: `_arguments = ['value']`, identity validation. -/
def addOnApplyArg (a : AddOnArgs) (p : String × ArgVal) : Except String AddOnArgs :=
  match p with
  | ("value", .s v) => .ok { value := v }
  | ("value", v) => .ok { value := argValStr v }
  | (name, _) => .error ("Not a possible argument: " ++ name)

/-- `counter_`: `_arguments = ['start']`, `validate_argument` is
`int(value)`. -/
def counterApplyArg (a : CounterArgs) (p : String × ArgVal) : Except String CounterArgs :=
  match p with
  | ("start", v) =>
    match (match v with
           | .s sv => (pyIntLiteral sv).elim (Except.error "") Except.ok
           | .i n => .ok n
           | .b bv => .ok (if bv then 1 else 0)) with
    | .ok n => .ok { a with start := n }
    | .error _ => .error ("Invalid value for argument 'start': " ++ argValStr v)
  | (name, _) => .error ("Not a possible argument: " ++ name)

/-- `CellDefinition._parse_arguments`: split the raw argument string at `,`,
each piece at `=` (which must yield exactly a name and a value). -/
def parseArgPairs (arguments : String) : Except String (List (String × ArgVal)) :=
  if arguments = "" then .ok []
  else
    (splitOnChar ',' arguments.data).mapM (fun arg =>
      match splitOnChar '=' arg with
      | [name, value] => .ok (String.mk name, ArgVal.s (String.mk value))
      | _ => .error ("cannot unpack argument: " ++ String.mk arg))

inductive CellKind where
  | strK | floatK | intK | boolK | dateK | addOnK | counterK | omitK
deriving DecidableEq

/-- The `_CELLS` dispatch table (in its insertion order). -/
def lookupCellKind : Char → Option CellKind
  | 's' => some .strK
  | 'f' => some .floatK
  | 'i' => some .intK
  | 'b' => some .boolK
  | 'd' => some .dateK
  | '&' => some .addOnK
  | 'x' => some .omitK
  | 'c' => some .counterK
  | _ => none

def kindChars : List Char := ['s', 'f', 'i', 'b', 'd', '&', 'x', 'c']

/-- `CellDefinition.__init__`: defaults, then the unparsed argument string,
then the typed keyword arguments, then `finalize_arguments`. -/
def mkCellFull (kind : CellKind) (unparsedArgs : Option String) (required : Bool)
    (parsedArgs : List (String × ArgVal)) : Except String Cell := do
  let rawPairs ← parseArgPairs (unparsedArgs.getD "")
  let allPairs := rawPairs ++ parsedArgs
  match kind with
  | .strK =>
    match allPairs with
    | [] => .ok (.strC required)
    | (name, _) :: _ => .error ("Not a possible argument: " ++ name)
  | .floatK => do
    let a ← allPairs.foldlM (numericApplyArg floatConvArg) {}
    .ok (.floatC required a)
  | .intK => do
    let a ← allPairs.foldlM (numericApplyArg intConvArg) {}
    .ok (.intC required a)
  | .boolK => do
    let a ← allPairs.foldlM boolApplyArg {}
    .ok (.boolC required a)
  | .dateK => do
    let a ← allPairs.foldlM dateApplyArg {}
    .ok (.dateC required a)
  | .addOnK => do
    let a ← allPairs.foldlM addOnApplyArg {}
    .ok (.addOnC required a)
  | .counterK => do
    let a ← allPairs.foldlM counterApplyArg {}
    -- finalize_arguments: self.current_count = int(self.start)
    .ok (.counterC required { a with current_count := a.start })
  | .omitK =>
    match allPairs with
    | [] => .ok (.dontIncludeC required)
    | (name, _) :: _ => .error ("Not a possible argument: " ++ name)

def mkCell (kind : CellKind) (unparsedArgs : Option String) (required : Bool) :
    Except String Cell :=
  mkCellFull kind unparsedArgs required []

/-! ### `parse_column_definition` -/

/-- The construction-time errors of `parse_column_definition`, carrying the
data the Python `RuntimeError` messages interpolate: the unrecognized
character with its 1-based position and the available kind characters, or
the 1-based position of an unmatched `(`; `argError` is the `ValueError`
raised by `CellDefinition.__init__`. -/
inductive ParseErr where
  | unknownChar (c : Char) (pos : Nat) (available : List Char)
  | unterminatedParen (pos : Nat)
  | argError (msg : String)
deriving DecidableEq

/-- Split a character list at the first `)` (`definition.find(')', col+1)`). -/
def splitAtRParen : List Char → Option (List Char × List Char)
  | [] => none
  | c :: rest =>
    if c = ')' then some ([], rest)
    else (splitAtRParen rest).map (fun p => (c :: p.1, p.2))

theorem splitAtRParen_length : ∀ {l a b : List Char},
    splitAtRParen l = some (a, b) → b.length < l.length := by
  intro l
  induction l with
  | nil => intro a b h; simp [splitAtRParen] at h
  | cons c rest ih =>
    intro a b h
    simp only [splitAtRParen] at h
    by_cases hc : c = ')'
    · simp [hc] at h
      simp [h.2]
    · simp only [hc, if_false] at h
      rcases hsp : splitAtRParen rest with _ | ⟨a', b'⟩ <;> rw [hsp] at h
      · simp at h
      · simp only [Option.map_some', Option.some.injEq, Prod.mk.injEq] at h
        have := ih hsp
        rw [← h.2]
        simp only [List.length_cons]
        omega

/-- The optional `(`…`)` argument group: returns the enclosed characters,
the remaining characters and the updated column index, or the 1-based
position for the unterminated-parenthesis error. -/
def scanArgs (rest : List Char) (col1 : Nat) :
    Except Nat (Option (List Char) × List Char × Nat) :=
  match rest with
  | '(' :: afterParen =>
    match splitAtRParen afterParen with
    | none => .error (col1 + 1)
    | some (argChars, rest2) => .ok (some argChars, rest2, col1 + argChars.length + 2)
  | _ => .ok (none, rest, col1)

theorem scanArgs_length {rest : List Char} {col1 : Nat}
    {args : Option (List Char)} {rest1 : List Char} {c1 : Nat}
    (h : scanArgs rest col1 = .ok (args, rest1, c1)) : rest1.length ≤ rest.length := by
  unfold scanArgs at h
  split at h
  · rename_i afterParen
    split at h
    · simp at h
    · rename_i argChars rest2 hsp
      simp at h
      have := splitAtRParen_length hsp
      simp [← h.2.1]
      omega
  · simp at h
    simp [← h.2.1]

/-- The optional trailing `!` marking the specification required. -/
def scanBang (rest : List Char) (col : Nat) : Bool × List Char × Nat :=
  match rest with
  | '!' :: rest1 => (true, rest1, col + 1)
  | _ => (false, rest, col)

theorem scanBang_length (rest : List Char) (col : Nat) :
    (scanBang rest col).2.1.length ≤ rest.length := by
  unfold scanBang
  split
  · simp
  · simp

/-- The parsing loop of `parse_column_definition`, with `col` the current
0-based position in the full definition string.  Fuel-bounded: every
iteration consumes at least the kind character, so fuel exceeding the
length of the remaining input never runs out (see `parseAux_fuel`). -/
def parseAux : Nat → List Char → Nat → Except ParseErr (List Cell)
  | 0, _, _ => .ok []
  | fuel + 1, l, col =>
    match l with
    | [] => .ok []
    | c :: rest =>
      match lookupCellKind c with
      | none => .error (.unknownChar c (col + 1) kindChars)
      | some kind =>
        match scanArgs rest (col + 1) with
        | .error p => .error (.unterminatedParen p)
        | .ok (args, rest1, col1) =>
          match scanBang rest1 col1 with
          | (required, rest2, col2) =>
            match mkCell kind (args.map (fun cs => String.mk cs)) required with
            | .error e => .error (.argError e)
            | .ok cell => (parseAux fuel rest2 col2).map (fun cells => cell :: cells)

/-- The fuel bound is irrelevant as long as it exceeds the input length:
each iteration consumes at least one character. -/
theorem parseAux_fuel : ∀ (fuel fuel' : Nat) (l : List Char) (col : Nat),
    l.length < fuel → l.length < fuel' → parseAux fuel l col = parseAux fuel' l col := by
  intro fuel
  induction fuel with
  | zero => intro fuel' l col h; omega
  | succ f ih =>
    intro fuel' l col h h'
    match fuel', h' with
    | fuel'' + 1, h'' =>
      cases l with
      | nil => rfl
      | cons c rest =>
        rcases hk : lookupCellKind c with _ | kind
        · simp [parseAux, hk]
        · rcases hs : scanArgs rest (col + 1) with p | ⟨args, rest1, col1⟩
          · simp [parseAux, hk, hs]
          · rcases hscan : scanBang rest1 col1 with ⟨required, rest2, col2⟩
            rcases hm : mkCell kind (args.map (fun cs => String.mk cs)) required with e | cell
            · simp [parseAux, hk, hs, hscan, hm]
            · have h1 := scanArgs_length hs
              have h2 := scanBang_length rest1 col1
              rw [hscan] at h2
              simp only at h2
              simp only [parseAux, hk, hs, hscan, hm]
              simp only [List.length_cons] at h h''
              rw [ih fuel'' rest2 col2 (by omega) (by omega)]

def parse_column_definition (definition : String) : Except ParseErr (List Cell) :=
  parseAux (definition.data.length + 1) definition.data 0

/-! ### The csv writer (`csv.excel` dialect, `QUOTE_MINIMAL`) -/

/-- A field is quoted when it contains the delimiter, the quote character or
a line-terminator character. -/
def csvNeedsQuote (d : Char) (f : String) : Bool :=
  f.data.any (fun c => c = d || c = '"' || c = '\r' || c = '\n')

def csvQuoteField (d : Char) (f : String) : String :=
  if csvNeedsQuote d f then
    "\"" ++ String.mk (f.data.flatMap (fun c => if c = '"' then ['"', '"'] else [c])) ++ "\""
  else f

/-- One `csv_writer.writerow(...)` record: fields joined with the delimiter,
terminated by CRLF. -/
def csvRecord (d : Char) (fields : List String) : String :=
  String.intercalate (String.mk [d]) (fields.map (csvQuoteField d)) ++ "\r\n"

/-! ### `write_rows_as_csv_to_stream` -/

/-- The `ValueError` wrapping a failed row: the raw row content and the
underlying cause (`f-string Row contains bad data ... with row and args`). -/
structure RowError where
  row : List String
  cause : String
deriving DecidableEq

/-- `len(cell_definitions_for_existing_columns)`: the specifications that are
not add-on/counter columns. -/
def numberOfColumnsToLookAt (cells : List Cell) : Nat :=
  (cells.filter (fun c => !isAddOn c)).length

/-- The inner per-row loop over the cell definitions: `col_number` is the
cursor into `relevant_cols`; add-on columns are evaluated with no input
value and do not advance it.  Returns the output buffer and the
state-updated cells, or the message of the first exception (an out-of-range
field access raises `IndexError('list index out of range')`). -/
def processCells : List Cell → List String → Nat → Except String (List String × List Cell)
  | [], _, _ => .ok ([], [])
  | c :: cs, cols, i =>
    if isAddOn c then
      match callCell c none with
      | .err e => .error e
      | .skip => (processCells cs cols i).map (fun p => (p.1, c :: p.2))
      | .ok v c' => (processCells cs cols i).map (fun p => (v :: p.1, c' :: p.2))
    else
      match cols[i]? with
      | none => .error "list index out of range"
      | some x =>
        match callCell c (some x) with
        | .err e => .error e
        | .skip => (processCells cs cols (i + 1)).map (fun p => (p.1, c :: p.2))
        | .ok v c' => (processCells cs cols (i + 1)).map (fun p => (v :: p.1, c' :: p.2))

/-- The row loop of `write_rows_as_csv_to_stream`: `out` is the text written
to the stream so far and `n` the rows written so far.  A row whose
concatenated fields are empty is skipped; a failing row aborts the run with
the wrapping `ValueError`, leaving the stream at `out`. -/
def writeRowsAux : List (List String) → List Cell → Char → String → Nat →
    String × Except RowError Nat
  | [], _, _, out, n => (out, .ok n)
  | row :: rest, cells, d, out, n =>
    if 0 < (String.join row).length then
      match processCells cells (row.take (numberOfColumnsToLookAt cells)) 0 with
      | .error e => (out, .error ⟨row, e⟩)
      | .ok (buf, cells') => writeRowsAux rest cells' d (out ++ csvRecord d buf) (n + 1)
    else writeRowsAux rest cells d out n

/-- `write_rows_as_csv_to_stream` with a pre-parsed columns definition:
returns the full text written to the stream and the returned row count (or
the wrapped row error). -/
def write_rows_as_csv_to_stream (rows : List (List String)) (cells : List Cell)
    (delimiter_char : Char) : String × Except RowError Nat :=
  writeRowsAux rows cells delimiter_char "" 0

/-- `write_rows_as_csv_to_stream` with a string columns definition, which is
parsed first. -/
def write_rows_with_definition (rows : List (List String)) (columns_definition : String)
    (delimiter_char : Char) : Except ParseErr (String × Except RowError Nat) :=
  (parse_column_definition columns_definition).map
    (fun cells => write_rows_as_csv_to_stream rows cells delimiter_char)

/-! ### The header-skip loop of `gs_download_to_csv` (`__main__.py`)

`for _ in range(skip_rows): next(rows)` with `StopIteration` converted to
`ValueError(f-string with skip_rows)`. -/

def skipRows (skip_rows : Nat) (rows : List (List String)) :
    Except String (List (List String)) :=
  if rows.length < skip_rows then
    .error ("Expected " ++ natRepr skip_rows ++ " header rows, but not all were there.")
  else .ok (rows.drop skip_rows)

/-! ### `CellDefinition.__eq__`

`__eq__` compares `__class__`, `required` and each attribute named in
`_arguments` via `getattr(self, attr, None)`; note in particular that a
counter's `current_count` and a date's `in_format`/`out_format` are *not*
in `_arguments` and are not compared. -/

def pythonEq : Cell → Cell → Bool
  | .strC r1, .strC r2 => decide (r1 = r2)
  | .floatC r1 a1, .floatC r2 a2 =>
    decide (r1 = r2) && decide (a1.lower = a2.lower) && decide (a1.upper = a2.upper)
      && decide (a1.thousands_separator = a2.thousands_separator)
      && decide (a1.ignore_non_numeric = a2.ignore_non_numeric)
  | .intC r1 a1, .intC r2 a2 =>
    decide (r1 = r2) && decide (a1.lower = a2.lower) && decide (a1.upper = a2.upper)
      && decide (a1.thousands_separator = a2.thousands_separator)
      && decide (a1.ignore_non_numeric = a2.ignore_non_numeric)
  | .boolC r1 a1, .boolC r2 a2 =>
    decide (r1 = r2) && decide (a1.trueLit = a2.trueLit) && decide (a1.falseLit = a2.falseLit)
  | .dateC r1 a1, .dateC r2 a2 =>
    decide (r1 = r2) && decide (a1.in_fmt = a2.in_fmt) && decide (a1.out_fmt = a2.out_fmt)
  | .addOnC r1 a1, .addOnC r2 a2 => decide (r1 = r2) && decide (a1.value = a2.value)
  | .counterC r1 a1, .counterC r2 a2 => decide (r1 = r2) && decide (a1.start = a2.start)
  | .dontIncludeC r1, .dontIncludeC r2 => decide (r1 = r2)
  | _, _ => false

/-- The kind of a specification, as the spec's data model describes it. -/
def kindOf : Cell → CellKind
  | .strC _ => .strK
  | .floatC _ _ => .floatK
  | .intC _ _ => .intK
  | .boolC _ _ => .boolK
  | .dateC _ _ => .dateK
  | .addOnC _ _ => .addOnK
  | .counterC _ _ => .counterK
  | .dontIncludeC _ => .omitK

/-- The kind-specific parameter values of a specification (the attributes
the class lists in `_arguments`), for stating the equality claim. -/
inductive ParamsView where
  | strP
  | floatP (lower upper : Option PyFloat) (tsep : Option Char) (inn : Option Bool)
  | intP (lower upper : Option Int) (tsep : Option Char) (inn : Option Bool)
  | boolP (t f : Option String)
  | dateP (i o : Option String)
  | addOnP (v : String)
  | counterP (start : Int)
  | omitP
deriving DecidableEq

def paramsOf : Cell → ParamsView
  | .strC _ => .strP
  | .floatC _ a => .floatP a.lower a.upper a.thousands_separator a.ignore_non_numeric
  | .intC _ a => .intP a.lower a.upper a.thousands_separator a.ignore_non_numeric
  | .boolC _ a => .boolP a.trueLit a.falseLit
  | .dateC _ a => .dateP a.in_fmt a.out_fmt
  | .addOnC _ a => .addOnP a.value
  | .counterC _ a => .counterP a.start
  | .dontIncludeC _ => .omitP

/-! ### Helper lemmas -/

theorem natToDigits_ne_nil (n : Nat) : natToDigits n ≠ [] := by
  unfold natToDigits natToDigitsAux
  split <;> simp

theorem stringMk_ne_empty {l : List Char} (h : l ≠ []) : String.mk l ≠ "" := by
  intro he
  apply h
  have hd : (String.mk l).data = ("" : String).data := by rw [he]
  simpa using hd

theorem intRepr_ne_empty (n : Int) : intRepr n ≠ "" := by
  cases n with
  | ofNat m => exact stringMk_ne_empty (natToDigits_ne_nil m)
  | negSucc m => exact stringMk_ne_empty (by simp)

theorem pyStrip_eq_empty_of_all_space {s : String} (h : s.data.all pyIsSpace) :
    pyStrip s = "" := by
  unfold pyStrip
  have h1 : s.data.dropWhile pyIsSpace = [] :=
    List.dropWhile_eq_nil_iff.mpr (fun x hx => List.all_eq_true.mp h x hx)
  rw [h1]
  rfl

theorem stringFoldlAppend (l : List String) (x : String) :
    l.foldl (· ++ ·) x = x ++ l.foldl (· ++ ·) "" := by
  induction l generalizing x with
  | nil => simp
  | cons b t ih =>
    simp only [List.foldl_cons]
    rw [ih (x ++ b), ih ("" ++ b)]
    simp [String.append_assoc]

theorem stringJoin_cons (a : String) (l : List String) :
    String.join (a :: l) = a ++ String.join l := by
  simp only [String.join, List.foldl_cons]
  rw [stringFoldlAppend l ("" ++ a)]
  simp

/-- Processing a row that offers fewer fields than there are input-consuming
specifications always fails (possibly on an earlier cell, at the latest on
the out-of-range field access). -/
theorem processCells_short_errors : ∀ (cells : List Cell) (cols : List String) (i : Nat),
    i ≤ cols.length → cols.length < i + numberOfColumnsToLookAt cells →
    ∃ e, processCells cells cols i = .error e := by
  intro cells
  induction cells with
  | nil =>
    intro cols i h1 h2
    simp [numberOfColumnsToLookAt] at h2
    omega
  | cons c cs ih =>
    intro cols i h1 h2
    by_cases ha : isAddOn c
    · have hcount : numberOfColumnsToLookAt (c :: cs) = numberOfColumnsToLookAt cs := by
        simp [numberOfColumnsToLookAt, List.filter_cons, ha]
      rw [hcount] at h2
      cases hc : callCell c none with
      | err e => exact ⟨e, by simp [processCells, ha, hc]⟩
      | skip =>
        obtain ⟨e, he⟩ := ih cols i h1 h2
        exact ⟨e, by simp [processCells, ha, hc, he, Except.map]⟩
      | ok v c' =>
        obtain ⟨e, he⟩ := ih cols i h1 h2
        exact ⟨e, by simp [processCells, ha, hc, he, Except.map]⟩
    · have hcount : numberOfColumnsToLookAt (c :: cs) = numberOfColumnsToLookAt cs + 1 := by
        simp [numberOfColumnsToLookAt, List.filter_cons, ha]
      rw [hcount] at h2
      cases hg : cols[i]? with
      | none => exact ⟨"list index out of range", by simp [processCells, ha, hg]⟩
      | some x =>
        have hlt : i < cols.length := by
          by_contra hge
          rw [List.getElem?_eq_none (by omega)] at hg
          cases hg
        cases hc : callCell c (some x) with
        | err e => exact ⟨e, by simp [processCells, ha, hg, hc]⟩
        | skip =>
          obtain ⟨e, he⟩ := ih cols (i + 1) (by omega) (by omega)
          exact ⟨e, by simp [processCells, ha, hg, hc, he, Except.map]⟩
        | ok v c' =>
          obtain ⟨e, he⟩ := ih cols (i + 1) (by omega) (by omega)
          exact ⟨e, by simp [processCells, ha, hg, hc, he, Except.map]⟩

/-! ### Claim theorems -/

/-- C1: for the input rows `["1","2","3"]` and `["1.0","2,0","3.0"]` with the
column definition string `"fff"` and tab as delimiter,
`write_rows_as_csv_to_stream` writes exactly two delimited records to the
sink — `1.0<TAB>2.0<TAB>3.0` followed by `1.0<TAB>20.0<TAB>3.0` (the comma in
the second row's middle field stripped as a grouping separator) — and
returns 2. -/
theorem c1_row_counting_end_to_end :
    write_rows_with_definition [["1", "2", "3"], ["1.0", "2,0", "3.0"]] "fff" '\t' =
      .ok ("1.0\t2.0\t3.0\r\n1.0\t20.0\t3.0\r\n", .ok 2) := by
  decide

/-- C2 (code bug): a date cell built from `"d(out_fmt=%d.%m.%Y)"` stores its
output pattern in the attribute `out_fmt` (the name listed in `_arguments`),
but `validate_and_format_value` reads `out_format`, which only ever holds
the `%Y-%m-%d` default set by `init_defaults` — so the configured pattern is
silently ignored: the value `2020-01-03` is re-rendered as `2020-01-03`,
whereas rendering with the configured pattern (as the class's own docstring
promises) would give `03.01.2020`. -/
theorem c2_configured_date_format_is_ignored :
    parse_column_definition "d(out_fmt=%d.%m.%Y)" =
      .ok [.dateC false { in_fmt := none, out_fmt := some "%d.%m.%Y",
                          in_format := "%Y-%m-%d", out_format := "%Y-%m-%d" }]
    ∧ callCell (.dateC false { out_fmt := some "%d.%m.%Y" }) (some "2020-01-03") =
        .ok "2020-01-03" (.dateC false { out_fmt := some "%d.%m.%Y" })
    ∧ strftime "%d.%m.%Y" ⟨2020, 1, 3⟩ = "03.01.2020"
    ∧ ("2020-01-03" : String) ≠ "03.01.2020" := by
  refine ⟨by decide, by decide, by decide, by decide⟩

/-- C3: with default separators `"123,4"` formats to `"1234.0"`; with
`thousands_separator='.'` the input `"1,234"` formats to `"1.234"`; and with
`ignore_non_numeric` true, the numeric validate-and-format routine behaves
exactly as the routine with the flag off applied to the input with every
character outside `[0-9,.]` removed — i.e. the stripping happens before the
separator normalization. -/
theorem c3_numeric_normalization :
    callCell (.floatC false {}) (some "123,4") = .ok "1234.0" (.floatC false {})
    ∧ callCell (.floatC false { thousands_separator := some '.' }) (some "1,234") =
        .ok "1.234" (.floatC false { thousands_separator := some '.' })
    ∧ (∀ {α : Type} (conv : String → Except String α) (render : α → String)
        (ltB : α → α → Bool) (lower upper : Option α) (tsep : Option Char) (s : String),
        numericVAF conv render ltB lower upper (some true) tsep (some s) =
          numericVAF conv render ltB lower upper (some false) tsep (some (pyFilterNumeric s))) := by
  refine ⟨by decide, by decide, ?_⟩
  intro α conv render ltB lower upper tsep s
  rfl

/-- C5: parsing a definition string fails at construction time for each
grammar violation: an unrecognized kind character (at any position in the
scan) yields the error naming the character, its 1-based position and the
valid kind characters; `"f("` reports the unmatched `(` with its position;
`"f!()!"` fails because the `(` after `!` is lexed as a new (invalid) kind
token; and `"i(lower=1,upper=2)!"` parses to a single required integer
specification with bounds 1 and 2. -/
theorem c5_grammar_errors :
    (∀ (fuel : Nat) (c : Char) (rest : List Char) (col : Nat),
      lookupCellKind c = none →
      parseAux (fuel + 1) (c :: rest) col = .error (.unknownChar c (col + 1) kindChars))
    ∧ parse_column_definition "f(" = .error (.unterminatedParen 2)
    ∧ parse_column_definition "f!()!" = .error (.unknownChar '(' 3 kindChars)
    ∧ parse_column_definition "i(lower=1,upper=2)!" =
        .ok [.intC true { lower := some 1, upper := some 2 }] := by
  refine ⟨?_, by decide, by decide, by decide⟩
  intro fuel c rest col h
  simp [parseAux, h]

/-- C5 witness: the general unknown-character clause applied at the concrete
character `z`. -/
theorem c5_grammar_errors_witness :
    lookupCellKind 'z' = none
    ∧ parseAux 1 ['z'] 0 = .error (.unknownChar 'z' 1 kindChars) :=
  ⟨by decide, c5_grammar_errors.1 0 'z' [] 0 (by decide)⟩

/-- C4: whenever evaluating the cell specifications raises on the row being
processed, `write_rows_as_csv_to_stream` writes nothing further to the sink
(the stream stays at exactly the text written for the preceding rows — no
partial record) and the whole run aborts with a single error carrying the
offending raw row and the underlying cause; the remaining rows are never
processed. -/
theorem c4_row_failure_aborts_run (cells : List Cell) (row : List String)
    (rest : List (List String)) (d : Char) (out : String) (n : Nat) (e : String)
    (hne : 0 < (String.join row).length)
    (hp : processCells cells (row.take (numberOfColumnsToLookAt cells)) 0 = .error e) :
    writeRowsAux (row :: rest) cells d out n = (out, .error ⟨row, e⟩) := by
  simp [writeRowsAux, hne, hp]

/-- C4 witness: a float column fed `"abc"` aborts the run before the second
row, with nothing written. -/
theorem c4_row_failure_aborts_run_witness :
    0 < (String.join ["abc"]).length
    ∧ processCells [.floatC false {}]
        ([("abc" : String)].take (numberOfColumnsToLookAt [.floatC false {}])) 0 =
        .error "Not parseable as float: abc"
    ∧ writeRowsAux [["abc"], ["1"]] [.floatC false {}] '\t' "" 0 =
        ("", .error ⟨["abc"], "Not parseable as float: abc"⟩) :=
  ⟨by decide, by decide,
    c4_row_failure_aborts_run [.floatC false {}] ["abc"] [["1"]] '\t' "" 0
      "Not parseable as float: abc" (by decide) (by decide)⟩

/-- C6 counterexample (as stated, the claim is false for the omit kind):
`dont_include_` overrides `__call__` to raise `_SkipColumn` unconditionally,
so a whitespace-only input to an omit specification — even a required one —
yields the skip signal, not the empty string, and never the required-empty
error. -/
theorem c6_whitespace_counterexample :
    callCell (.dontIncludeC true) (some " ") = .skip
    ∧ CallOutcome.skip ≠ .err requiredMsg
    ∧ CallOutcome.skip ≠ .ok "" (.dontIncludeC true) := by
  refine ⟨by decide, by decide, by decide⟩

/-- C6 (amended to every non-omit specification): a whitespace-only string
input bypasses the kind-specific conversion entirely and yields the empty
string; with `required=true` this raises the required-value-empty error, and
with `required=false` the empty string is the result (the cell state — e.g.
a counter — is untouched). -/
theorem c6_whitespace_bypasses_conversion (c : Cell) (s : String)
    (homit : isOmit c = false) (hspace : s.data.all pyIsSpace = true) :
    callCell c (some s) = (if requiredOf c then .err requiredMsg else .ok "" c) := by
  have hs : pyStrip s = "" := pyStrip_eq_empty_of_all_space hspace
  cases c with
  | dontIncludeC r => simp [isOmit] at homit
  | strC r => simp [callCell, hs, requiredOf]
  | floatC r a => simp [callCell, hs, requiredOf]
  | intC r a => simp [callCell, hs, requiredOf]
  | boolC r a => simp [callCell, hs, requiredOf]
  | dateC r a => simp [callCell, hs, requiredOf]
  | addOnC r a => simp [callCell, hs, requiredOf]
  | counterC r a => simp [callCell, hs, requiredOf]

/-- C6 witness: a required text cell fed `" "` raises the required-empty
error; an optional one yields `""`. -/
theorem c6_whitespace_bypasses_conversion_witness :
    isOmit (.strC true) = false
    ∧ (" " : String).data.all pyIsSpace = true
    ∧ callCell (.strC true) (some " ") =
        (if requiredOf (.strC true) then .err requiredMsg else .ok "" (.strC true))
    ∧ callCell (.strC false) (some " ") =
        (if requiredOf (.strC false) then .err requiredMsg else .ok "" (.strC false)) :=
  ⟨by decide, by decide,
    c6_whitespace_bypasses_conversion (.strC true) " " (by decide) (by decide),
    c6_whitespace_bypasses_conversion (.strC false) " " (by decide) (by decide)⟩

/-- C9 counterexample (as stated, the claim is false): with 3 rows requested
and only 1 available, the error message is
`Expected 3 header rows, but not all were there.` — it names how many rows
were expected, but contains no `1` anywhere, so it does not name how many
were found. -/
theorem c9_skip_rows_counterexample :
    skipRows 3 [["a"]] = .error "Expected 3 header rows, but not all were there."
    ∧ ('1' ∈ ("Expected 3 header rows, but not all were there." : String).data) = False := by
  refine ⟨by decide, by decide⟩

/-- C9 (amended): when the requested number of leading rows to skip exceeds
the rows available, the run fails with a hard error naming how many rows
were expected; the number actually found is not part of the error. -/
theorem c9_skip_rows_exhausted (skip_rows : Nat) (rows : List (List String))
    (h : rows.length < skip_rows) :
    skipRows skip_rows rows =
      .error ("Expected " ++ natRepr skip_rows ++ " header rows, but not all were there.") := by
  simp [skipRows, h]

/-- C9 witness: the amended statement at 3 requested rows and 1 available. -/
theorem c9_skip_rows_exhausted_witness :
    ([["a"]] : List (List String)).length < 3
    ∧ skipRows 3 [["a"]] =
        .error ("Expected " ++ natRepr 3 ++ " header rows, but not all were there.") :=
  ⟨by decide, c9_skip_rows_exhausted 3 [["a"]] (by decide)⟩

/-- C10: a processed row with non-empty concatenated fields but fewer fields
than there are input-consuming specifications (omit columns included,
add-on/counter columns excluded) makes the run abort with the wrapped
row error carrying that raw row — short rows are not padded. -/
theorem c10_short_rows_abort (cells : List Cell) (row : List String)
    (rest : List (List String)) (d : Char) (out : String) (n : Nat)
    (hne : 0 < (String.join row).length)
    (hshort : row.length < numberOfColumnsToLookAt cells) :
    ∃ e, writeRowsAux (row :: rest) cells d out n = (out, .error ⟨row, e⟩) := by
  have htake : row.take (numberOfColumnsToLookAt cells) = row :=
    List.take_of_length_le (Nat.le_of_lt hshort)
  obtain ⟨e, he⟩ := processCells_short_errors cells row 0 (Nat.zero_le _) (by omega)
  exact ⟨e, by simp [writeRowsAux, hne, htake, he]⟩

/-- C10 witness: two text columns fed a one-field row abort with the wrapped
out-of-range error. -/
theorem c10_short_rows_abort_witness :
    0 < (String.join ["a"]).length
    ∧ (["a"] : List String).length < numberOfColumnsToLookAt [.strC false, .strC false]
    ∧ ∃ e, writeRowsAux [["a"]] [.strC false, .strC false] '\t' "" 0 =
        ("", .error ⟨["a"], e⟩) :=
  ⟨by decide, by decide,
    c10_short_rows_abort [.strC false, .strC false] ["a"] [] '\t' "" 0
      (by decide) (by decide)⟩

/-- C7: an omit (`x`) specification consumes exactly one input field (it
advances the input cursor, erroring when no field is left) and contributes
no output entry; an add-on (`&`) or counter (`c`) specification contributes
exactly one output entry while consuming no input field; and within one run
the single counter instance is threaded through every processed row, each
row emitting its incremented count — `start + k + 1` for the `k`-th
processed row — which strictly increases across successive rows. -/
theorem c7_omit_and_synthetic_columns :
    (∀ (req : Bool) (cs : List Cell) (cols : List String) (i : Nat),
      processCells (Cell.dontIncludeC req :: cs) cols i =
        match cols[i]? with
        | none => .error "list index out of range"
        | some _ =>
          (processCells cs cols (i + 1)).map (fun p => (p.1, Cell.dontIncludeC req :: p.2)))
    ∧ (∀ (req : Bool) (a : AddOnArgs) (cs : List Cell) (cols : List String) (i : Nat),
      processCells (Cell.addOnC req a :: cs) cols i =
        if a.value = "" ∧ req = true then .error requiredMsg
        else (processCells cs cols i).map
          (fun p => (a.value :: p.1, Cell.addOnC req a :: p.2)))
    ∧ (∀ (req : Bool) (st : CounterArgs) (cs : List Cell) (cols : List String) (i : Nat),
      processCells (Cell.counterC req st :: cs) cols i =
        (processCells cs cols i).map (fun p =>
          (intRepr (st.current_count + 1) :: p.1,
           Cell.counterC req { st with current_count := st.current_count + 1 } :: p.2)))
    ∧ (∀ (m : Nat) (req : Bool) (st : CounterArgs) (d : Char) (out : String) (n : Nat),
      writeRowsAux (List.replicate m ["a"]) [Cell.counterC req st] d out n =
        (out ++ String.join ((List.range m).map (fun (k : Nat) =>
          csvRecord d [intRepr (st.current_count + (k : Int) + 1)])), .ok (n + m)))
    ∧ (∀ (st : CounterArgs) (j k : Nat), j < k →
      st.current_count + (j : Int) + 1 < st.current_count + (k : Int) + 1) := by
  refine ⟨?_, ?_, ?_, ?_, ?_⟩
  · intro req cs cols i
    cases hg : cols[i]? <;> simp [processCells, isAddOn, callCell, hg]
  · intro req a cs cols i
    by_cases h : a.value = "" ∧ req = true <;>
      simp [processCells, isAddOn, callCell, cellVAF, requiredOf, h]
  · intro req st cs cols i
    simp [processCells, isAddOn, callCell, cellVAF, requiredOf, intRepr_ne_empty]
  · intro m
    induction m with
    | zero => intro req st d out n; simp [writeRowsAux, String.join]
    | succ m ih =>
      intro req st d out n
      have hcall : processCells [Cell.counterC req st] ([] : List String) 0 =
          .ok ([intRepr (st.current_count + 1)],
               [Cell.counterC req { st with current_count := st.current_count + 1 }]) := by
        simp [processCells, isAddOn, callCell, cellVAF, requiredOf, intRepr_ne_empty,
          Except.map]
      have hjoin : String.join ((List.range (m + 1)).map (fun (k : Nat) =>
            csvRecord d [intRepr (st.current_count + (k : Int) + 1)])) =
          csvRecord d [intRepr (st.current_count + 1)] ++
            String.join ((List.range m).map (fun (k : Nat) =>
              csvRecord d [intRepr (st.current_count + 1 + (k : Int) + 1)])) := by
        rw [List.range_succ_eq_map, List.map_cons, stringJoin_cons, List.map_map]
        have h0 : st.current_count + ((0 : Nat) : Int) + 1 = st.current_count + 1 := by
          push_cast; ring
        rw [h0]
        congr 1
        refine congrArg String.join (List.map_congr_left ?_)
        intro k _
        simp only [Function.comp]
        have hk : st.current_count + ((Nat.succ k : Nat) : Int) + 1 =
            st.current_count + 1 + (k : Int) + 1 := by push_cast; ring
        rw [hk]
      rw [List.replicate_succ]
      simp only [writeRowsAux]
      rw [if_pos (by decide)]
      simp only [numberOfColumnsToLookAt, List.filter, isAddOn, List.take]
      simp only [hcall]
      rw [ih req { st with current_count := st.current_count + 1 } d
        (out ++ csvRecord d [intRepr (st.current_count + 1)]) (n + 1)]
      rw [Prod.ext_iff]
      constructor
      · simp only [hjoin, String.append_assoc]
      · simp only []
        congr 1
        omega
  · intro st j k h
    omega

/-- C7 witness: the run-level counter clause at two rows starting from count
5 — emitting `6` then `7` — and the strict-increase clause at rows 0 and 1. -/
theorem c7_omit_and_synthetic_columns_witness :
    writeRowsAux (List.replicate 2 ["a"]) [Cell.counterC false { start := 5, current_count := 5 }]
        '\t' "" 0 =
      ("" ++ String.join ((List.range 2).map (fun (k : Nat) =>
        csvRecord '\t' [intRepr (({ start := 5, current_count := 5 } : CounterArgs).current_count
          + (k : Int) + 1)])), .ok (0 + 2))
    ∧ writeRowsAux (List.replicate 2 ["a"])
        [Cell.counterC false { start := 5, current_count := 5 }] '\t' "" 0 =
        ("6\r\n7\r\n", .ok 2)
    ∧ (0 : Nat) < 1
    ∧ ({ start := 5, current_count := 5 } : CounterArgs).current_count + ((0 : Nat) : Int) + 1 <
        ({ start := 5, current_count := 5 } : CounterArgs).current_count + ((1 : Nat) : Int) + 1 :=
  ⟨c7_omit_and_synthetic_columns.2.2.2.1 2 false { start := 5, current_count := 5 } '\t' "" 0,
   by decide,
   by decide,
   c7_omit_and_synthetic_columns.2.2.2.2 { start := 5, current_count := 5 } 0 1 (by decide)⟩

/-- C8: two cell specifications compare equal under `__eq__` iff they have
the same kind, the same required flag and the same kind-specific parameter
values; in particular a specification built from the raw argument string
`lower=1,upper=2` equals one built from already-typed keyword values
`lower=1, upper=2`. -/
theorem c8_specification_equality :
    (∀ a b : Cell, pythonEq a b = true ↔
        (kindOf a = kindOf b ∧ requiredOf a = requiredOf b ∧ paramsOf a = paramsOf b))
    ∧ mkCellFull .intK (some "lower=1,upper=2") false [] =
        .ok (.intC false { lower := some 1, upper := some 2 })
    ∧ mkCellFull .intK none false [("lower", .i 1), ("upper", .i 2)] =
        .ok (.intC false { lower := some 1, upper := some 2 })
    ∧ pythonEq (.intC false { lower := some 1, upper := some 2 })
        (.intC false { lower := some 1, upper := some 2 }) = true := by
  refine ⟨?_, by decide, by decide, by decide⟩
  intro a b
  cases a <;> cases b <;>
    simp [pythonEq, kindOf, requiredOf, paramsOf, and_assoc]

end MaraGSD
